import Mathlib

/-!
Verification of the Header/Meta Checker userscript
(src/header-meta-checker.user.js) against its specification.

Modelling conventions, shared by every definition below:

* JavaScript strings are modelled as `List Char` (`JSString`); the helper
  `str` converts a Lean string literal to that representation.
  `String.prototype.toLowerCase` is modelled per character by the core
  `Char.toLower` (basic-latin lowering), `trim` by stripping whitespace
  characters from both ends, `split('\n')` by `splitOnNewline`,
  `startsWith`/`includes`/`endsWith` by the corresponding list predicates.
* Network calls made through `GM_xmlhttpRequest` are modelled at the
  collaborator boundary: a fetch outcome is an `Option` whose `none` case
  is the `onerror` callback (transport error).
* `document.querySelector('meta[name="robots"]')` and
  `getAttribute('content')` are modelled as `Option (Option JSString)`:
  `none` = no tag, `some none` = tag present but `content` attribute
  missing (JS `null`), `some (some s)` = tag with content string `s`.
* A JavaScript exception (calling `toLowerCase()` on `null`) is modelled
  by an `Option` result: `checkMetaTag` returns `none` exactly when the
  original code throws, and `runChecks` propagates that failure.
-/

namespace HeaderMetaChecker

/-- JavaScript strings, modelled as lists of characters. -/
abbrev JSString := List Char

/-- Conversion from a Lean string literal to the `JSString` model. -/
def str (s : String) : JSString := s.toList

/-- Model of `s.toLowerCase()`: basic-latin lowering of every character. -/
def lowerChars (s : JSString) : JSString := s.map Char.toLower

/-- Model of `s.trim()`: strip whitespace characters from both ends. -/
def trimChars (s : JSString) : JSString :=
  (((s.dropWhile Char.isWhitespace).reverse.dropWhile Char.isWhitespace)).reverse

/-- Model of `s.split('\n')`. -/
def splitOnNewline : JSString → List JSString
  | [] => [[]]
  | c :: rest =>
    if c = '\n' then
      [] :: splitOnNewline rest
    else
      match splitOnNewline rest with
      | [] => [[c]]
      | h :: t => (c :: h) :: t

/-- Model of `haystack.includes(needle)`: substring containment test. -/
def includesChars : JSString → JSString → Bool
  | [], needle => needle.isEmpty
  | c :: rest, needle => needle.isPrefixOf (c :: rest) || includesChars rest needle

/-- Model of `s.endsWith(suffix)`. -/
def endsWithChars (s suffix : JSString) : Bool := suffix.isSuffixOf s

/-- Embedding of `getNormalizedPathname` (source lines 33-39): removes a
trailing slash when the path is longer than one character. `slice(0, -1)`
is `List.dropLast`. -/
def getNormalizedPathname (pathname : JSString) : JSString :=
  if decide (pathname.length > 1) && endsWithChars pathname (str "/") then
    pathname.dropLast
  else
    pathname

/-- Statuses reported by the checks: `'ok'`, `'bad'`, `'not-found'`. -/
inductive Status where
  | ok
  | bad
  | notFound
deriving DecidableEq, Repr

/-- Result records `{ message, status }` resolved by each check. -/
structure Verdict where
  message : JSString
  status : Status
deriving DecidableEq, Repr

/-- Embedding of `shouldUseStandardLogic` (source lines 78-88): standard
logic only on `get-honey.ai` outside the funnel list, inverted elsewhere. -/
def shouldUseStandardLogic (hostname pathname : JSString)
    (funnelPaths : List JSString) : Bool :=
  if hostname == str "get-honey.ai" then
    !(funnelPaths.contains (getNormalizedPathname pathname))
  else
    false

/-- Embedding of the restrictiveness test shared by `checkMetaTag` (line
148) and `checkHeaderTag` (line 178):
`value.toLowerCase().includes('noindex') || value.toLowerCase().includes('nofollow')`. -/
def isRestrictive (value : JSString) : Bool :=
  includesChars (lowerChars value) (str "noindex") ||
    includesChars (lowerChars value) (str "nofollow")

/-- Embedding of the `disallowedPaths` extraction inside
`checkRobotsTxtForPath` (source lines 104-107): split the fetched document
on newlines, trim and lower-case each line, keep the `disallow:` lines,
and take the trimmed remainder after the 9-character `disallow:` prefix. -/
def disallowedPaths (robotsTxtContent : JSString) : List JSString :=
  (((splitOnNewline robotsTxtContent).map
        (fun line => lowerChars (trimChars line))).filter
      (fun line => (str "disallow:").isPrefixOf line)).map
    (fun line => trimChars (line.drop 9))

/-- Embedding of the per-rule normalization inside the `some` callback
(source lines 113-117): the same trailing-slash removal as
`getNormalizedPathname`, written inline in the source. -/
def normalizeDisallowedPath (disallowedPath : JSString) : JSString :=
  if decide (disallowedPath.length > 1) && endsWithChars disallowedPath (str "/") then
    disallowedPath.dropLast
  else
    disallowedPath

/-- Embedding of the `isDisallowed` computation (source lines 110-120):
some extracted rule, once normalized and non-empty, equals the current
path or is a `/`-terminated prefix of it. -/
def isDisallowed (robotsTxtContent currentPath : JSString) : Bool :=
  (disallowedPaths robotsTxtContent).any fun disallowedPath =>
    let ndp := normalizeDisallowedPath disallowedPath
    if ndp == ([] : JSString) then
      false
    else
      currentPath == ndp || (ndp ++ str "/").isPrefixOf currentPath

/-- Embedding of `checkRobotsTxtForPath` (source lines 96-135).
`robotsFetch` is the collaborator outcome: `none` is the `onerror`
callback, `some content` the `onload` callback with `responseText`. -/
def checkRobotsTxtForPath (robotsFetch : Option JSString)
    (currentPath : JSString) : Verdict :=
  match robotsFetch with
  | none => ⟨str "robots.txt: Fetch Error", Status.notFound⟩
  | some robotsTxtContent =>
    if isDisallowed robotsTxtContent currentPath then
      ⟨str "robots.txt: Disallowed", Status.ok⟩
    else
      ⟨str "robots.txt: NOT Disallowed", Status.bad⟩

/-- Embedding of `checkMetaTag` (source lines 141-158). `metaTag` models
the DOM query: `none` = tag absent, `some none` = tag present with `null`
`content` attribute, `some (some c)` = tag with content string `c`. The
result is `none` exactly when the source throws: with a `null` content the
line `content.toLowerCase()` raises a `TypeError`, so no verdict object is
ever returned. -/
def checkMetaTag (hostname pathname : JSString) (funnelPaths : List JSString)
    (metaTag : Option (Option JSString)) : Option Verdict :=
  match metaTag with
  | some none => none
  | some (some content) =>
    let message := str "Meta: content=\"" ++ content ++ str "\""
    let restrictive := isRestrictive content
    let status :=
      if shouldUseStandardLogic hostname pathname funnelPaths then
        (if restrictive then Status.bad else Status.ok)
      else
        (if restrictive then Status.ok else Status.bad)
    some ⟨message, status⟩
  | none => some ⟨str "Meta: tag not found", Status.notFound⟩

/-- Embedding of `checkHeaderTag` (source lines 164-187). `headerFetch`
models the re-fetch: `none` is the `onerror` callback; `some none` is a
successful response whose headers do not match the `x-robots-tag` regex;
`some (some captured)` is a successful response where the regex captured
group 1 as `captured` (the value after the colon up to the line end). -/
def checkHeaderTag (hostname pathname : JSString) (funnelPaths : List JSString)
    (headerFetch : Option (Option JSString)) : Verdict :=
  match headerFetch with
  | none => ⟨str "Header: Request error", Status.notFound⟩
  | some headerMatch =>
    let isStandard := shouldUseStandardLogic hostname pathname funnelPaths
    match headerMatch with
    | some captured =>
      let headerValue := trimChars captured
      let restrictive := isRestrictive headerValue
      ⟨str "Header: x-robots-tag: " ++ headerValue,
        if isStandard then (if restrictive then Status.bad else Status.ok)
        else (if restrictive then Status.ok else Status.bad)⟩
    | none =>
      ⟨str "Header: not found", if isStandard then Status.ok else Status.bad⟩

/-- One invocation of the script: the page location, the configured funnel
list, the DOM meta-tag observation, and the two network outcomes. -/
structure RunInput where
  hostname : JSString
  pathname : JSString
  funnelPaths : List JSString
  metaTag : Option (Option JSString)
  robotsFetch : Option JSString
  headerFetch : Option (Option JSString)

/-- Embedding of `runChecks` (source lines 45-72): compute the funnel
test, resolve the left (primary) verdict — robots.txt result when its
status is `'ok'`, otherwise the meta-tag fallback — then the right
(header) verdict. The result is `none` when `checkMetaTag` throws, in
which case the banner is never displayed. -/
def runChecks (inp : RunInput) : Option (Verdict × Verdict) :=
  let pathname := getNormalizedPathname inp.pathname
  let isFunnel := inp.hostname == str "get-honey.ai" &&
    inp.funnelPaths.contains pathname
  let leftPanelResult : Option Verdict :=
    if isFunnel then
      let robotsResult := checkRobotsTxtForPath inp.robotsFetch pathname
      if robotsResult.status == Status.ok then
        some robotsResult
      else
        checkMetaTag inp.hostname inp.pathname inp.funnelPaths inp.metaTag
    else
      checkMetaTag inp.hostname inp.pathname inp.funnelPaths inp.metaTag
  match leftPanelResult with
  | none => none
  | some left =>
    some (left, checkHeaderTag inp.hostname inp.pathname inp.funnelPaths inp.headerFetch)

/-- Modelled from the spec: the standard-polarity meta evaluation that the
specification predicts for the funnel fallback ("re-evaluates the page as
if it were ORDINARY, using the meta-tag signal"): restrictive content is
`BAD`, non-restrictive content is `OK`. Used only to compare the spec's
predicted fallback verdict with the one the source computes. -/
def specStandardMetaStatus (content : JSString) : Status :=
  if isRestrictive content then Status.bad else Status.ok

/-! Helper lemmas. -/

/-- Converting a valid codepoint to a character and back is the identity. -/
theorem toNat_ofNat_of_valid {n : Nat} (h : n.isValidChar) :
    (Char.ofNat n).toNat = n := by
  unfold Char.ofNat
  rw [dif_pos h]
  rfl

/-- Basic-latin lowering of a character is idempotent. -/
theorem toLower_toLower (c : Char) : c.toLower.toLower = c.toLower := by
  unfold Char.toLower
  by_cases h : Char.toNat c ≥ 65 ∧ Char.toNat c ≤ 90
  · rw [if_pos h]
    have hval : (Char.toNat c + 32).isValidChar := Or.inl (by omega)
    have ht : (Char.ofNat (Char.toNat c + 32)).toNat = Char.toNat c + 32 :=
      toNat_ofNat_of_valid hval
    rw [ht, if_neg (by omega)]
  · rw [if_neg h, if_neg h]

/-- Characters of a trimmed string are characters of the original string. -/
theorem mem_of_mem_trimChars {c : Char} {l : JSString} (h : c ∈ trimChars l) :
    c ∈ l := by
  unfold trimChars at h
  rw [List.mem_reverse] at h
  have h1 := (List.dropWhile_sublist Char.isWhitespace).subset h
  rw [List.mem_reverse] at h1
  exact (List.dropWhile_sublist Char.isWhitespace).subset h1

/-- Bool-level suffix test unfolded to the suffix relation. -/
theorem endsWithChars_iff {s u : JSString} : endsWithChars s u = true ↔ u <:+ s := by
  simp [endsWithChars]

/-- Normalization leaves a path unchanged when its guard fails. -/
theorem getNormalizedPathname_eq_self {p : JSString}
    (h : (decide (p.length > 1) && endsWithChars p (str "/")) = false) :
    getNormalizedPathname p = p := by
  simp only [getNormalizedPathname, h]
  rfl

/-- Normalization drops the last character when its guard holds. -/
theorem getNormalizedPathname_eq_dropLast {p : JSString}
    (h : (decide (p.length > 1) && endsWithChars p (str "/")) = true) :
    getNormalizedPathname p = p.dropLast := by
  simp only [getNormalizedPathname, h]
  rfl

/-- When the page is a funnel and the robots.txt verdict is not `ok`,
`runChecks` resolves the primary verdict through the meta-tag fallback. -/
theorem runChecks_funnel_fallback (inp : RunInput)
    (hfun : (inp.hostname == str "get-honey.ai" &&
      inp.funnelPaths.contains (getNormalizedPathname inp.pathname)) = true)
    (hrob : (checkRobotsTxtForPath inp.robotsFetch
      (getNormalizedPathname inp.pathname)).status ≠ Status.ok) :
    runChecks inp =
      (checkMetaTag inp.hostname inp.pathname inp.funnelPaths inp.metaTag).map
        (fun v =>
          (v, checkHeaderTag inp.hostname inp.pathname inp.funnelPaths inp.headerFetch)) := by
  simp only [runChecks]
  rw [if_pos hfun, if_neg (by simp only [beq_iff_eq]; exact hrob)]
  cases hm : checkMetaTag inp.hostname inp.pathname inp.funnelPaths inp.metaTag <;>
    simp [hm]

/-- On a funnel page the polarity computed by `shouldUseStandardLogic` is
inverted. -/
theorem shouldUseStandardLogic_of_funnel {hostname pathname : JSString}
    {funnelPaths : List JSString}
    (hfun : (hostname == str "get-honey.ai" &&
      funnelPaths.contains (getNormalizedPathname pathname)) = true) :
    shouldUseStandardLogic hostname pathname funnelPaths = false := by
  have h1 := (Bool.and_eq_true _ _).mp hfun
  simp only [shouldUseStandardLogic]
  rw [if_pos h1.1, h1.2]
  rfl

/-! Claim theorems. -/

/-- Claim C4, counterexample: on a host other than the primary host
(inverted polarity) a successful header re-fetch with no `x-robots-tag`
header is mapped to `BAD`, refuting "the header verdict is never BAD". -/
theorem missing_header_inverted_bad_cex :
    checkHeaderTag (str "example.com") (str "/") [] (some none) =
      ⟨str "Header: not found", Status.bad⟩ ∧
    Status.bad ≠ Status.ok ∧ Status.bad ≠ Status.notFound := by
  refine ⟨by decide, by decide, by decide⟩

/-- Claim C4, amended: when the header re-fetch succeeds but no
`x-robots-tag` header is present, the header verdict is `OK` under
standard polarity and `BAD` under inverted polarity; it is never
`NOT_FOUND`. -/
theorem missing_header_polarity_mapping (hostname pathname : JSString)
    (funnelPaths : List JSString) :
    checkHeaderTag hostname pathname funnelPaths (some none) =
      ⟨str "Header: not found",
        if shouldUseStandardLogic hostname pathname funnelPaths then Status.ok
        else Status.bad⟩ :=
  rfl

/-- Claim C5: absence handling is asymmetric — an absent meta tag yields
`NOT_FOUND` regardless of polarity, while an absent header on a successful
header fetch yields the polarity-dependent `OK`/`BAD` and never
`NOT_FOUND`. -/
theorem meta_header_absence_asymmetry (hostname pathname : JSString)
    (funnelPaths : List JSString) :
    checkMetaTag hostname pathname funnelPaths none =
      some ⟨str "Meta: tag not found", Status.notFound⟩ ∧
    (checkHeaderTag hostname pathname funnelPaths (some none)).status =
      (if shouldUseStandardLogic hostname pathname funnelPaths then Status.ok
        else Status.bad) ∧
    (checkHeaderTag hostname pathname funnelPaths (some none)).status ≠
      Status.notFound := by
  refine ⟨rfl, rfl, ?_⟩
  by_cases hs : shouldUseStandardLogic hostname pathname funnelPaths <;>
    simp [checkHeaderTag, hs]

/-- Claim C6: for every present meta value, under standard polarity a
restrictive value (case-insensitively containing "noindex" or "nofollow")
yields `BAD` and a non-restrictive one yields `OK`; under inverted
polarity the same inputs yield `OK` and `BAD` respectively, as the four
concrete instances illustrate. -/
theorem meta_verdict_mapping :
    (∀ (hostname pathname : JSString) (funnelPaths : List JSString)
        (content : JSString),
      checkMetaTag hostname pathname funnelPaths (some (some content)) =
        some ⟨str "Meta: content=\"" ++ content ++ str "\"",
          if includesChars (lowerChars content) (str "noindex") ||
              includesChars (lowerChars content) (str "nofollow") then
            (if shouldUseStandardLogic hostname pathname funnelPaths then
              Status.bad else Status.ok)
          else
            (if shouldUseStandardLogic hostname pathname funnelPaths then
              Status.ok else Status.bad)⟩) ∧
    (checkMetaTag (str "get-honey.ai") (str "/") []
        (some (some (str "index, follow")))).map Verdict.status =
      some Status.ok ∧
    (checkMetaTag (str "get-honey.ai") (str "/") []
        (some (some (str "noindex")))).map Verdict.status =
      some Status.bad ∧
    (checkMetaTag (str "example.com") (str "/") []
        (some (some (str "index, follow")))).map Verdict.status =
      some Status.bad ∧
    (checkMetaTag (str "example.com") (str "/") []
        (some (some (str "noindex")))).map Verdict.status =
      some Status.ok := by
  refine ⟨?_, by decide, by decide, by decide, by decide⟩
  intro hostname pathname funnelPaths content
  simp only [checkMetaTag, isRestrictive]
  by_cases hr : (includesChars (lowerChars content) (str "noindex") ||
      includesChars (lowerChars content) (str "nofollow")) = true <;>
    by_cases hs : shouldUseStandardLogic hostname pathname funnelPaths <;>
      simp_all

/-- Claim C9: the meta-tag check produces a verdict exactly when the tag
is absent or its content attribute is a string; it fails to produce a
verdict (the source throws a `TypeError` on `content.toLowerCase()`)
exactly when the tag is present with a `null` content attribute. -/
theorem meta_check_totality (hostname pathname : JSString)
    (funnelPaths : List JSString) (metaTag : Option (Option JSString)) :
    checkMetaTag hostname pathname funnelPaths metaTag = none ↔
      metaTag = some none := by
  cases metaTag with
  | none => simp [checkMetaTag]
  | some content? => cases content? <;> simp [checkMetaTag]

/-- A funnel run on the primary host whose robots.txt document contains no
`Disallow` line and whose meta tag carries non-restrictive content. -/
def funnelNonRestrictiveRun : RunInput :=
  ⟨str "get-honey.ai", str "/f", [str "/f"],
    some (some (str "index, follow")), some (str "User-agent: *"), some none⟩

/-- A funnel run on the primary host whose robots.txt fetch fails and
whose meta tag carries restrictive content. -/
def funnelFetchErrorRun : RunInput :=
  ⟨str "get-honey.ai", str "/f", [str "/f"],
    some (some (str "noindex")), none, some none⟩

/-- Claim C1, counterexample: on a funnel page with a `BAD` exclusion-rule
check and meta content `"index, follow"`, the primary verdict reported is
`BAD`, while the standard-polarity meta evaluation the claim prescribes
would report `OK`; the fallback therefore does not re-evaluate the page
under standard polarity. -/
theorem funnel_fallback_not_standard_cex :
    (runChecks funnelNonRestrictiveRun).map (fun pr => pr.1.status) =
      some Status.bad ∧
    specStandardMetaStatus (str "index, follow") = Status.ok ∧
    Status.bad ≠ Status.ok := by
  refine ⟨by decide, by decide, by decide⟩

/-- Claim C1, amended: on a funnel page whose exclusion-rule check
resolves to `BAD`, the resolver falls back to the meta-tag check and
reports its verdict instead of the `BAD` exclusion-rule verdict, but the
meta signal is evaluated under the page's own polarity, which for a funnel
path on the primary host is inverted: restrictive content yields `OK` and
non-restrictive content yields `BAD`. -/
theorem funnel_fallback_uses_page_polarity (inp : RunInput)
    (doc content : JSString)
    (hfun : (inp.hostname == str "get-honey.ai" &&
      inp.funnelPaths.contains (getNormalizedPathname inp.pathname)) = true)
    (hfetch : inp.robotsFetch = some doc)
    (hnomatch : isDisallowed doc (getNormalizedPathname inp.pathname) = false)
    (hmeta : inp.metaTag = some (some content)) :
    (runChecks inp).map (fun pr => pr.1) =
      checkMetaTag inp.hostname inp.pathname inp.funnelPaths inp.metaTag ∧
    (runChecks inp).map (fun pr => pr.1.status) =
      some (if isRestrictive content then Status.ok else Status.bad) := by
  have hrob : (checkRobotsTxtForPath inp.robotsFetch
      (getNormalizedPathname inp.pathname)).status ≠ Status.ok := by
    rw [hfetch]
    simp [checkRobotsTxtForPath, hnomatch]
  have hmain := runChecks_funnel_fallback inp hfun hrob
  have hstd := shouldUseStandardLogic_of_funnel hfun
  constructor
  · rw [hmain, hmeta]
    simp [checkMetaTag]
  · rw [hmain, hmeta]
    simp only [checkMetaTag, hstd]
    by_cases hr : isRestrictive content <;> simp [hr]

/-- Claim C1, witness for the amended theorem at a concrete input. -/
theorem funnel_fallback_uses_page_polarity_witness :
    ((funnelNonRestrictiveRun.hostname == str "get-honey.ai" &&
      funnelNonRestrictiveRun.funnelPaths.contains
        (getNormalizedPathname funnelNonRestrictiveRun.pathname)) = true) ∧
    funnelNonRestrictiveRun.robotsFetch = some (str "User-agent: *") ∧
    isDisallowed (str "User-agent: *")
      (getNormalizedPathname funnelNonRestrictiveRun.pathname) = false ∧
    funnelNonRestrictiveRun.metaTag = some (some (str "index, follow")) ∧
    (runChecks funnelNonRestrictiveRun).map (fun pr => pr.1.status) =
      some (if isRestrictive (str "index, follow") then Status.ok
        else Status.bad) :=
  ⟨by decide, rfl, by decide, rfl,
    (funnel_fallback_uses_page_polarity funnelNonRestrictiveRun
      (str "User-agent: *") (str "index, follow")
      (by decide) rfl (by decide) rfl).2⟩

/-- Claim C2: on a funnel run whose fetched exclusion document has no
matching `Disallow` line and whose meta tag is present with content
`"noindex, nofollow"`, the fallback triggers and the final primary verdict
is the meta verdict with status `OK`. -/
theorem funnel_misconfigured_noindex_fallback_ok (inp : RunInput)
    (doc : JSString)
    (hfun : (inp.hostname == str "get-honey.ai" &&
      inp.funnelPaths.contains (getNormalizedPathname inp.pathname)) = true)
    (hfetch : inp.robotsFetch = some doc)
    (hnomatch : isDisallowed doc (getNormalizedPathname inp.pathname) = false)
    (hmeta : inp.metaTag = some (some (str "noindex, nofollow"))) :
    (runChecks inp).map (fun pr => pr.1) =
      some ⟨str "Meta: content=\"noindex, nofollow\"", Status.ok⟩ := by
  have hrob : (checkRobotsTxtForPath inp.robotsFetch
      (getNormalizedPathname inp.pathname)).status ≠ Status.ok := by
    rw [hfetch]
    simp [checkRobotsTxtForPath, hnomatch]
  have hstd := shouldUseStandardLogic_of_funnel hfun
  rw [runChecks_funnel_fallback inp hfun hrob, hmeta]
  simp only [checkMetaTag, hstd]
  have hr : isRestrictive (str "noindex, nofollow") = true := by decide
  simp [hr]
  decide

/-- Claim C2, witness at a concrete input. -/
theorem funnel_misconfigured_noindex_fallback_ok_witness :
    ((str "get-honey.ai" == str "get-honey.ai" &&
      [str "/f"].contains (getNormalizedPathname (str "/f"))) = true) ∧
    isDisallowed (str "User-agent: *") (getNormalizedPathname (str "/f")) = false ∧
    (runChecks ⟨str "get-honey.ai", str "/f", [str "/f"],
        some (some (str "noindex, nofollow")), some (str "User-agent: *"),
        some none⟩).map (fun pr => pr.1) =
      some ⟨str "Meta: content=\"noindex, nofollow\"", Status.ok⟩ :=
  ⟨by decide, by decide,
    funnel_misconfigured_noindex_fallback_ok
      ⟨str "get-honey.ai", str "/f", [str "/f"],
        some (some (str "noindex, nofollow")), some (str "User-agent: *"),
        some none⟩
      (str "User-agent: *") (by decide) rfl (by decide) rfl⟩

/-- Claim C3, counterexample: on a funnel run whose robots.txt fetch fails
with a transport error and whose meta tag is `"noindex"`, the reported
primary verdict is `OK`, not `NOT_FOUND`: the orchestrator treats the
fetch-error status like the `BAD` status and falls back to the meta
check. -/
theorem robots_fetch_error_fallback_cex :
    (runChecks funnelFetchErrorRun).map (fun pr => pr.1.status) =
      some Status.ok ∧
    Status.ok ≠ Status.notFound := by
  refine ⟨by decide, by decide⟩

/-- Claim C3, amended: when the exclusion-document fetch fails with a
transport error, the matcher is not invoked and the robots.txt check
itself resolves to the `NOT_FOUND` fetch-error verdict, but the
orchestrator does not report it: any non-`OK` robots status triggers the
meta-tag fallback, so the reported primary verdict is the meta-tag
verdict. -/
theorem robots_fetch_error_falls_back_to_meta (inp : RunInput)
    (hfun : (inp.hostname == str "get-honey.ai" &&
      inp.funnelPaths.contains (getNormalizedPathname inp.pathname)) = true)
    (hfetch : inp.robotsFetch = none) :
    checkRobotsTxtForPath inp.robotsFetch (getNormalizedPathname inp.pathname) =
      ⟨str "robots.txt: Fetch Error", Status.notFound⟩ ∧
    runChecks inp =
      (checkMetaTag inp.hostname inp.pathname inp.funnelPaths inp.metaTag).map
        (fun v =>
          (v, checkHeaderTag inp.hostname inp.pathname inp.funnelPaths
            inp.headerFetch)) := by
  have h1 : checkRobotsTxtForPath inp.robotsFetch
      (getNormalizedPathname inp.pathname) =
      ⟨str "robots.txt: Fetch Error", Status.notFound⟩ := by
    rw [hfetch]
    rfl
  exact ⟨h1, runChecks_funnel_fallback inp hfun (by rw [h1]; decide)⟩

/-- Claim C3, witness for the amended theorem at a concrete input. -/
theorem robots_fetch_error_falls_back_to_meta_witness :
    ((funnelFetchErrorRun.hostname == str "get-honey.ai" &&
      funnelFetchErrorRun.funnelPaths.contains
        (getNormalizedPathname funnelFetchErrorRun.pathname)) = true) ∧
    funnelFetchErrorRun.robotsFetch = none ∧
    checkRobotsTxtForPath funnelFetchErrorRun.robotsFetch
      (getNormalizedPathname funnelFetchErrorRun.pathname) =
      ⟨str "robots.txt: Fetch Error", Status.notFound⟩ :=
  ⟨by decide, rfl,
    (robots_fetch_error_falls_back_to_meta funnelFetchErrorRun
      (by decide) rfl).1⟩

/-- The per-rule test inside `isDisallowed`, characterized: a rule fires
exactly when its normalized path is non-empty and either equals the query
path or is a `/`-terminated prefix of it. -/
theorem robots_rule_match_iff (p dp : JSString) :
    (if normalizeDisallowedPath dp == ([] : JSString) then false
      else p == normalizeDisallowedPath dp ||
        (normalizeDisallowedPath dp ++ str "/").isPrefixOf p) = true ↔
    (normalizeDisallowedPath dp ≠ [] ∧
      (p = normalizeDisallowedPath dp ∨
        (normalizeDisallowedPath dp ++ str "/").isPrefixOf p = true)) := by
  by_cases he : normalizeDisallowedPath dp = []
  · simp [he]
  · have hbe : (normalizeDisallowedPath dp == ([] : JSString)) = false := by
      simp [he]
    simp [hbe, he]

/-- Claim C7: the exclusion-rule matcher excludes a path exactly when some
non-empty normalized `Disallow` candidate equals the path or the path
starts with the candidate followed by `/`; in particular, for the document
`"Disallow: /a\nDisallow: /b/"` the path `/a/x` is excluded and the path
`/ab` is not. -/
theorem robots_exclusion_matching :
    (∀ doc p, isDisallowed doc p = true ↔
      ∃ dp, dp ∈ disallowedPaths doc ∧ normalizeDisallowedPath dp ≠ [] ∧
        (p = normalizeDisallowedPath dp ∨
          (normalizeDisallowedPath dp ++ str "/").isPrefixOf p = true)) ∧
    isDisallowed (str "Disallow: /a\nDisallow: /b/") (str "/a/x") = true ∧
    isDisallowed (str "Disallow: /a\nDisallow: /b/") (str "/ab") = false := by
  refine ⟨?_, by decide, by decide⟩
  intro doc p
  simp only [isDisallowed, List.any_eq_true]
  constructor
  · rintro ⟨dp, hmem, hdp⟩
    exact ⟨dp, hmem, (robots_rule_match_iff p dp).mp hdp⟩
  · rintro ⟨dp, hmem, hdp⟩
    exact ⟨dp, hmem, (robots_rule_match_iff p dp).mpr hdp⟩

/-- Claim C8, counterexample: normalization is not idempotent on the input
`"/a//"` — one application yields `"/a/"`, a second yields `"/a"`. -/
theorem normalizer_not_idempotent_cex :
    getNormalizedPathname (str "/a//") = str "/a/" ∧
    getNormalizedPathname (getNormalizedPathname (str "/a//")) ≠
      getNormalizedPathname (str "/a//") := by
  refine ⟨by decide, by decide⟩

/-- Claim C8, amended: the normalizer strips exactly one trailing slash,
so it is idempotent on every input path that does not end in two
consecutive slashes, and the root path `/` is a fixed point. -/
theorem normalizer_idempotent_amended :
    (∀ p : JSString, endsWithChars p (str "//") = false →
      getNormalizedPathname (getNormalizedPathname p) =
        getNormalizedPathname p) ∧
    getNormalizedPathname (str "/") = str "/" := by
  refine ⟨?_, by decide⟩
  intro p h
  by_cases hc : (decide (p.length > 1) && endsWithChars p (str "/")) = true
  · rw [getNormalizedPathname_eq_dropLast hc]
    have hsuf : (str "/") <:+ p :=
      endsWithChars_iff.mp ((Bool.and_eq_true _ _).mp hc).2
    obtain ⟨t, ht⟩ := hsuf
    have hdrop : p.dropLast = t := by
      rw [← ht]
      exact List.dropLast_concat
    rw [hdrop]
    apply getNormalizedPathname_eq_self
    by_contra hne
    rw [Bool.not_eq_false] at hne
    have h2 : (str "/") <:+ t :=
      endsWithChars_iff.mp ((Bool.and_eq_true _ _).mp hne).2
    obtain ⟨u, hu⟩ := h2
    have hdd : endsWithChars p (str "//") = true := by
      rw [endsWithChars_iff]
      refine ⟨u, ?_⟩
      have hsplit : str "//" = str "/" ++ str "/" := rfl
      rw [hsplit, ← List.append_assoc, hu, ht]
    simp [hdd] at h
  · have hcf : (decide (p.length > 1) && endsWithChars p (str "/")) = false := by
      simpa using hc
    rw [getNormalizedPathname_eq_self hcf, getNormalizedPathname_eq_self hcf]

/-- Claim C8, witness for the amended theorem at a concrete input. -/
theorem normalizer_idempotent_amended_witness :
    endsWithChars (str "/a/") (str "//") = false ∧
    getNormalizedPathname (getNormalizedPathname (str "/a/")) =
      getNormalizedPathname (str "/a/") :=
  ⟨by decide, normalizer_idempotent_amended.1 (str "/a/") (by decide)⟩

/-- Claim C10: every candidate extracted from the exclusion document is
fully lowercase (each of its characters is fixed by lowering), while the
query path is never lower-cased; hence a path whose relevant prefix
contains an uppercase letter is not matched by a rule differing from it
only in case, as the concrete instances show in both directions. -/
theorem disallow_candidates_lowercase :
    (∀ (doc dp : JSString) (ch : Char), dp ∈ disallowedPaths doc → ch ∈ dp →
      Char.toLower ch = ch) ∧
    isDisallowed (str "Disallow: /Funnel") (str "/Funnel") = false ∧
    isDisallowed (str "Disallow: /Funnel") (str "/funnel") = true ∧
    isDisallowed (str "disallow: /funnel") (str "/Funnel") = false := by
  refine ⟨?_, by decide, by decide, by decide⟩
  intro doc dp ch hdp hch
  simp only [disallowedPaths, List.mem_map, List.mem_filter] at hdp
  obtain ⟨line, ⟨hline, hpref⟩, rfl⟩ := hdp
  obtain ⟨raw, hraw, rfl⟩ := hline
  have h1 := mem_of_mem_trimChars hch
  have h2 := List.drop_subset 9 _ h1
  rw [lowerChars, List.mem_map] at h2
  obtain ⟨y, hy, rfl⟩ := h2
  exact toLower_toLower y

/-- Claim C10, witness: a concrete extracted candidate with a concrete
character, shown lowercase by applying the theorem. -/
theorem disallow_candidates_lowercase_witness :
    (str "/a") ∈ disallowedPaths (str "Disallow: /A") ∧
    'a' ∈ str "/a" ∧ Char.toLower 'a' = 'a' :=
  ⟨by decide, by decide,
    disallow_candidates_lowercase.1 (str "Disallow: /A") (str "/a") 'a'
      (by decide) (by decide)⟩

example : getNormalizedPathname (str "/a/") = str "/a" := by decide
example : getNormalizedPathname (str "/") = str "/" := by decide
example : isDisallowed (str "Disallow: /a\nDisallow: /b/") (str "/a/x") = true := by decide
example : isDisallowed (str "Disallow: /a\nDisallow: /b/") (str "/ab") = false := by decide
example : isRestrictive (str "NoIndex") = true := by decide
example : isRestrictive (str "index, follow") = false := by decide

end HeaderMetaChecker
